import Mathlib

/-!
Shallow embedding of `src/Documentinsights.py` (a Streamlit insurance-claim
PDF analyzer) and verification of its specification claims.

Modelling conventions:
* Python `dict`s that are built by inserting fresh keys in order are modelled
  as association lists (`List (String × String)`), which preserves the
  insertion order that the source relies on (`dict.items()`, `dict.values()`).
* HTTP calls (`requests.post`) are modelled by an oracle argument producing a
  `PostOutcome`: either the call raised (network error) or returned a response
  whose parsed-JSON body and raw text are given.
* A Python function that may raise is modelled with `Except`; the message
  plays the role of `str(e)`.  Exception messages reproduce the information
  that matters to the program (e.g. the missing key); CPython's exact
  wording (quoting, etc.) is approximated, which no claim depends on.
* The module-level environment globals `API_KEY` and `PROJECT_ID` and the
  working directory are passed as explicit parameters.
-/

/-! ## Python string primitives -/

/-- The ASCII whitespace characters recognised by Python `str.strip()`
(general Unicode whitespace is out of scope for the texts modelled here). -/
def isPySpace (c : Char) : Bool :=
  c == ' ' || c == '\t' || c == '\n' || c == '\r' || c == '\x0b' || c == '\x0c'

/-- Python `str.strip()`: drop leading and trailing whitespace. -/
def pyStrip (s : String) : String :=
  String.mk (((s.data.dropWhile isPySpace).reverse.dropWhile isPySpace).reverse)

/-! ## JSON values and Python subscription -/

/-- JSON values, the shape of parsed HTTP response bodies. -/
inductive Json where
  | null
  | bool (b : Bool)
  | num (n : Int)
  | str (s : String)
  | arr (xs : List Json)
  | obj (kvs : List (String × Json))

/-- Whether a JSON value is a Python `str`. -/
def Json.isStr : Json → Bool
  | .str _ => true
  | _ => false

/-- Python `str()` of a JSON-shaped value (as used by f-string interpolation
and `str.join`).  Container renderings are abbreviated; no claim reaches
them. -/
def pyStr : Json → String
  | .null => "None"
  | .bool true => "True"
  | .bool false => "False"
  | .num n => toString n
  | .str s => s
  | .arr _ => "[...]"
  | .obj _ => "\x7b...\x7d"

/-- Exceptions that Python subscription / JSON decoding can raise. -/
inductive PyErr where
  | jsonDecode (msg : String)
  | keyError (key : String)
  | typeError (msg : String)
  | indexError (msg : String)

/-- `str(e)` for a `PyErr` (informal rendering of the CPython message). -/
def PyErr.toStr : PyErr → String
  | .jsonDecode m => m
  | .keyError k => "KeyError: " ++ k
  | .typeError m => m
  | .indexError m => m

/-- Python `x[k]` for a string key `k`: succeeds only on a dict that has the
key; everything else raises (`KeyError` / `TypeError`). -/
def pyGetKey : Json → String → Except PyErr Json
  | .obj kvs, k =>
    match kvs.lookup k with
    | some v => Except.ok v
    | none => Except.error (PyErr.keyError k)
  | .arr _, k => Except.error (PyErr.typeError ("list indices must be integers, not str: " ++ k))
  | .str _, k => Except.error (PyErr.typeError ("string indices must be integers: " ++ k))
  | _, k => Except.error (PyErr.typeError ("object is not subscriptable: " ++ k))

/-- Python `x[i]` for a natural index `i`: indexes lists (and strings);
a dict raises `KeyError`, scalars raise `TypeError`. -/
def pyGetIdx : Json → Nat → Except PyErr Json
  | .arr xs, i =>
    match xs.get? i with
    | some v => Except.ok v
    | none => Except.error (PyErr.indexError ("list index out of range"))
  | .str s, i =>
    match s.data.get? i with
    | some c => Except.ok (Json.str (String.mk [c]))
    | none => Except.error (PyErr.indexError ("string index out of range"))
  | .obj _, i => Except.error (PyErr.keyError (toString i))
  | _, _ => Except.error (PyErr.typeError ("object is not subscriptable"))

/-- Python `sep.join(xs)` over a list of JSON-shaped values: succeeds only
when every element is a `str`, otherwise raises `TypeError`. -/
def pyJoin (sep : String) (xs : List Json) : Except String String :=
  if xs.all Json.isStr then
    Except.ok (String.intercalate sep (xs.map pyStr))
  else
    Except.error ("sequence item: expected str instance")

/-! ## Path primitives (`os.path`) -/

/-- Index of the last occurrence of `c` in `l`, if any. -/
def lastIdxOf (l : List Char) (c : Char) : Option Nat :=
  ((List.range l.length).filter (fun i => l.get? i = some c)).getLast?

/-- `os.path.splitext(p)[0]` (posixpath): drop everything from the last dot
on, unless that dot lies before the last path separator or every character
between the separator and the dot is itself a dot (leading-dot files keep
their name). -/
def splitext_base (p : String) : String :=
  let l := p.data
  let start : Nat :=
    match lastIdxOf l '/' with
    | some s => s + 1
    | none => 0
  match lastIdxOf l '.' with
  | none => p
  | some d =>
    if start ≤ d ∧ ((l.drop start).take (d - start)).any (fun ch => ch ≠ '.') then
      String.mk (l.take d)
    else p

/-- `os.path.join(a, b)` (posixpath) for the two-argument form used by the
source: an absolute `b` wins; otherwise `b` is appended to `a`, inserting a
separator unless `a` is empty or already ends in one. -/
def path_join (a b : String) : String :=
  if b.data.head? = some '/' then b
  else if a = "" then b
  else if a.data.getLast? = some '/' then a ++ b
  else a ++ "/" ++ b

/-! ## HTTP model -/

/-- An HTTP response as the source observes it: `response.json()` (which may
raise a decode error, carried as a message) and `response.text` (the raw
body).  The two fields are independent because no JSON parser is modelled. -/
structure HttpResponse where
  body : Except String Json
  text : String

/-- Outcome of one `requests.post` call: the call itself raised (network
error), or a response arrived. -/
inductive PostOutcome where
  | raise (msg : String)
  | resp (r : HttpResponse)

/-- The form-encoded token request posted by `get_ibm_access_token`. -/
structure TokenRequest where
  url : String
  grant_type : String
  apikey : String

/-- The fixed generation parameters of the Watsonx payload. -/
structure WatsonParameters where
  decoding_method : String
  max_new_tokens : Nat
  min_new_tokens : Nat
  stop_sequences : List String
  repetition_penalty : Nat
deriving DecidableEq

/-- The JSON payload posted by `send_chunk_to_watsonx`. -/
structure WatsonPayload where
  input : String
  parameters : WatsonParameters
  model_id : String
  project_id : String
deriving DecidableEq

/-- A full generation request: URL, bearer header, payload. -/
structure WatsonRequest where
  url : String
  authorization : String
  payload : WatsonPayload
deriving DecidableEq

/-! ## The source functions -/

/-- The module-level prompt string (`Insurance_Claim_Prompt`), a triple-quoted
literal ending in a newline. -/
def Insurance_Claim_Prompt : String :=
  "Summarixe and get key insights from the given document in all details in structured table format.: \n"

/-- The sentinel stored for a page with no extractable text. -/
def sentinel_no_text : String := "[No extractable text found on this page]"

/-- What `PdfReader` + per-page `extract_text()` delivers for an upload:
either the list of page texts in order, or some step raised (corrupt or
encrypted PDF). -/
inductive PdfReadResult where
  | ok (pages : List String)
  | exn (msg : String)

/-- The page loop of `extract_text_from_pdf`: builds the ordered mapping
f-string key `"Page " ++ n` to the page text, substituting the sentinel when
`page_text.strip()` is empty (`n` is the 1-based page number of the first
remaining page). -/
def extractPagesFrom (n : Nat) : List String → List (String × String)
  | [] => []
  | t :: ts =>
    ("Page " ++ toString n, if pyStrip t ≠ "" then t else sentinel_no_text)
      :: extractPagesFrom (n + 1) ts

/-- `extract_text_from_pdf`: on a readable PDF, the ordered page mapping;
when the reader raises, the `except` branch shows an error and returns the
empty dict. -/
def extract_text_from_pdf : PdfReadResult → List (String × String)
  | .ok pages => extractPagesFrom 1 pages
  | .exn _ => []

/-- Fuel-driven core of Python `range(start, stop, step)` (fuel makes the
recursion structural; `rangeStep` below supplies fuel `stop - start`, which
suffices for every positive `step`). -/
def rangeStepGo (stop step : Nat) : Nat → Nat → List Nat
  | 0, _ => []
  | fuel + 1, s => if s < stop then s :: rangeStepGo stop step fuel (s + step) else []

/-- Python `range(start, stop, step)` for a positive `step` (the source only
uses steps 15 and 90; `range` with step 0 raises in Python and is out of
scope). -/
def rangeStep (start stop step : Nat) : List Nat :=
  rangeStepGo stop step (stop - start) start

/-- `chunk_pages`: `pages = list(extracted_dict.items())`, then one chunk
`dict(pages[i:i + chunk_size])` per `i in range(0, len(pages), chunk_size)`;
the slice `pages[i:i+K]` is `(pages.drop i).take K`. -/
def chunk_pages (extracted_dict : List (String × String)) (chunk_size : Nat) :
    List (List (String × String)) :=
  (rangeStep 0 extracted_dict.length chunk_size).map
    (fun i => (extracted_dict.drop i).take chunk_size)

/-- The fixed IAM token URL. -/
def iam_url : String := "https://iam.cloud.ibm.com/identity/token"

/-- `get_ibm_access_token`: posts the form-encoded grant to the IAM URL and
returns `response.json()["access_token"]`.  Any raise (network error, JSON
decode error, missing key) propagates to the caller as `Except.error`.
The returned JSON value is rendered with `pyStr` here rather than at its
single use site (the `Bearer` f-string), which is observationally equal. -/
def get_ibm_access_token (api_key : String) (post : TokenRequest → PostOutcome) :
    Except String String :=
  match post { url := iam_url,
               grant_type := "urn:ibm:params:oauth:grant-type:apikey",
               apikey := api_key } with
  | .raise m => Except.error m
  | .resp r =>
    match r.body with
    | .error m => Except.error m
    | .ok j =>
      match pyGetKey j ("access_token") with
      | .ok v => Except.ok (pyStr v)
      | .error e => Except.error e.toStr

/-- The fixed Watsonx generation URL. -/
def watsonx_url : String :=
  "https://us-south.ml.cloud.ibm.com/ml/v1/text/generation?version=2024-01-15"

/-- The request `send_chunk_to_watsonx` posts: fixed URL, bearer header, and
the payload with the fixed prompt prefix and generation parameters. -/
def mkWatsonRequest (chunk_text access_token project_id : String) : WatsonRequest :=
  { url := watsonx_url,
    authorization := "Bearer " ++ access_token,
    payload :=
      { input := Insurance_Claim_Prompt ++ "\n\nDOCUMENT CONTENT:\n" ++ chunk_text,
        parameters :=
          { decoding_method := "greedy",
            max_new_tokens := 8100,
            min_new_tokens := 0,
            stop_sequences := [],
            repetition_penalty := 1 },
        model_id := "meta-llama/llama-3-3-70b-instruct",
        project_id := project_id } }

/-- The `try` block of `send_chunk_to_watsonx`:
`response.json()["results"][0]["generated_text"]`. -/
def parseWatsonResponse (r : HttpResponse) : Except PyErr Json :=
  match r.body with
  | .error m => Except.error (PyErr.jsonDecode m)
  | .ok j =>
    match pyGetKey j ("results") with
    | .error e => Except.error e
    | .ok results =>
      match pyGetIdx results 0 with
      | .error e => Except.error e
      | .ok first => pyGetKey first ("generated_text")

/-- `send_chunk_to_watsonx`: posts the request (outside the `try`, so a
network raise propagates), then parses the response inside the `try`; any
parse failure is converted to the inline soft-failure string built from
`str(e)` and `response.text`. -/
def send_chunk_to_watsonx (chunk_text access_token project_id : String)
    (post : WatsonRequest → PostOutcome) : Except String Json :=
  match post (mkWatsonRequest chunk_text access_token project_id) with
  | .raise m => Except.error m
  | .resp r =>
    match parseWatsonResponse r with
    | .ok v => Except.ok v
    | .error e =>
      Except.ok (Json.str ("[Watsonx response error: " ++ e.toStr ++ " - Raw: " ++ r.text ++ "]"))

/-- `save_to_word_from_markdown`: downloads pandoc and converts the markdown
to a docx at `os.path.join(os.getcwd(), base + "_Insurance_Claim_Analysis.docx")`,
returning the path; if the converter is unavailable or conversion fails
(`pandocOk = false`), the `except` branch shows an error and returns `None`.
The markdown text only affects the written file contents, not the returned
path. -/
def save_to_word_from_markdown (markdown_text upload_file_name : String)
    (cwd : String) (pandocOk : Bool) : Option String :=
  if pandocOk then
    some (path_join cwd (splitext_base upload_file_name ++ "_Insurance_Claim_Analysis.docx"))
  else
    none

/-! ## The orchestrator (the Streamlit script body) -/

/-- The per-chunk prompt text: `"\n".join(chunk.values())`. -/
def chunk_values_text (chunk : List (String × String)) : String :=
  String.intercalate "\n" (chunk.map Prod.snd)

/-- The analysis loop (`for i, chunk in enumerate(chunks)`): sends each
chunk in order, accumulating the issued requests and the collected results;
a raise from `send_chunk_to_watsonx` (network error in `requests.post`)
stops the loop and propagates.  `genPost i` is the outcome of the i-th
physical POST of the run. -/
def analyzeLoop (token project_id : String) (genPost : Nat → PostOutcome) :
    Nat → List (List (String × String)) → List WatsonRequest × Except String (List Json)
  | _, [] => ([], Except.ok [])
  | i, c :: cs =>
    match send_chunk_to_watsonx (chunk_values_text c) token project_id
        (fun _ => genPost i) with
    | .error m => ([mkWatsonRequest (chunk_values_text c) token project_id], Except.error m)
    | .ok v =>
      (mkWatsonRequest (chunk_values_text c) token project_id
          :: (analyzeLoop token project_id genPost (i + 1) cs).1,
       match (analyzeLoop token project_id genPost (i + 1) cs).2 with
       | .ok vs => Except.ok (v :: vs)
       | .error m => Except.error m)

/-- `st.session_state` as the script uses it: whether the key
`word_generated` is present, and the value of `word_path` if present.
Streamlit keeps this state across script reruns of one browser session;
nothing in the source ever deletes the keys. -/
structure SessionState where
  word_generated : Bool
  word_path : Option String
deriving DecidableEq

/-- The session state of a fresh browser session: no keys present. -/
def SessionState.init : SessionState := { word_generated := false, word_path := none }

/-- The external circumstances of one script run: the uploaded file (name
and what reading it yields), the environment credentials, the outcomes of
the HTTP posts, whether pandoc download + conversion succeeds, the working
directory, and which paths exist on disk at download time. -/
structure RunInput where
  uploaded : Option (String × PdfReadResult)
  api_key : String
  project_id : String
  iamPost : TokenRequest → PostOutcome
  genPost : Nat → PostOutcome
  pandocOk : Bool
  cwd : String
  pathExists : String → Bool

/-- The user-visible observables of one script run, plus the session state
it leaves behind. -/
structure RunOutput where
  extractionErrorShown : Bool
  noTextErrorShown : Bool
  tokenFetched : Bool
  chunked : Bool
  requests : List WatsonRequest
  analysisErrorShown : Bool
  displayedReport : Option String
  conversionErrorShown : Bool
  downloadPath : Option String
  finalState : SessionState
deriving DecidableEq

/-- One Streamlit script run (the `if uploaded_file:` body), faithful to the
source's control flow: extract; halt with the no-text error if the mapping
is empty; inside the `try`: fetch the token, chunk with chunk_size 90, run
the analysis loop, join the results with a blank line, display them, then
generate the Word document only if `word_generated` is not in the session
state, and offer the download if `word_path` is present and exists on disk.
Any raise inside the `try` lands in the generic analysis-error handler. -/
def run (inp : RunInput) (s : SessionState) : RunOutput :=
  match inp.uploaded with
  | none =>
    { extractionErrorShown := false, noTextErrorShown := false, tokenFetched := false,
      chunked := false, requests := [], analysisErrorShown := false,
      displayedReport := none, conversionErrorShown := false, downloadPath := none,
      finalState := s }
  | some (name, pdf) =>
    let extracted := extract_text_from_pdf pdf
    let extErr : Bool := match pdf with | .exn _ => true | .ok _ => false
    if extracted.isEmpty then
      { extractionErrorShown := extErr, noTextErrorShown := true, tokenFetched := false,
        chunked := false, requests := [], analysisErrorShown := false,
        displayedReport := none, conversionErrorShown := false, downloadPath := none,
        finalState := s }
    else
      match get_ibm_access_token inp.api_key inp.iamPost with
      | .error _ =>
        { extractionErrorShown := extErr, noTextErrorShown := false, tokenFetched := true,
          chunked := false, requests := [], analysisErrorShown := true,
          displayedReport := none, conversionErrorShown := false, downloadPath := none,
          finalState := s }
      | .ok token =>
        let reqs := (analyzeLoop token inp.project_id inp.genPost 0 (chunk_pages extracted 90)).1
        match (analyzeLoop token inp.project_id inp.genPost 0 (chunk_pages extracted 90)).2 with
        | .error _ =>
          { extractionErrorShown := extErr, noTextErrorShown := false, tokenFetched := true,
            chunked := true, requests := reqs, analysisErrorShown := true,
            displayedReport := none, conversionErrorShown := false, downloadPath := none,
            finalState := s }
        | .ok outputs =>
          match pyJoin "\n\n" outputs with
          | .error _ =>
            { extractionErrorShown := extErr, noTextErrorShown := false, tokenFetched := true,
              chunked := true, requests := reqs, analysisErrorShown := true,
              displayedReport := none, conversionErrorShown := false, downloadPath := none,
              finalState := s }
          | .ok final_output =>
            let s' : SessionState :=
              if s.word_generated then s
              else
                match save_to_word_from_markdown final_output name inp.cwd inp.pandocOk with
                | some p => { word_generated := true, word_path := some p }
                | none => s
            let dl : Option String :=
              match s'.word_path with
              | some p => if inp.pathExists p then some p else none
              | none => none
            { extractionErrorShown := extErr, noTextErrorShown := false, tokenFetched := true,
              chunked := true, requests := reqs, analysisErrorShown := false,
              displayedReport := some final_output,
              conversionErrorShown := !s.word_generated && !inp.pandocOk,
              downloadPath := dl, finalState := s' }

/-! ## Concrete scenario data (used by witnesses and counterexamples) -/

/-- A well-formed generation response: `results[0].generated_text = "R1"`. -/
def okGenResp : HttpResponse :=
  { body := Except.ok (Json.obj [("results",
      Json.arr [Json.obj [("generated_text", Json.str "R1")]])]),
    text := "rawbody" }

/-- A well-formed token response carrying `access_token = "tok"`. -/
def okTokResp : HttpResponse :=
  { body := Except.ok (Json.obj [("access_token", Json.str "tok")]),
    text := "rawtok" }

/-- A malformed generation response: valid JSON, but no `results` field. -/
def missingResultsResp : HttpResponse :=
  { body := Except.ok (Json.obj []), text := "RAW" }

/-- A baseline run input: no upload, healthy services, pandoc available,
working directory `/w`, every path present on disk. -/
def baseInput : RunInput :=
  { uploaded := none,
    api_key := "k", project_id := "proj",
    iamPost := fun _ => PostOutcome.resp okTokResp,
    genPost := fun _ => PostOutcome.resp okGenResp,
    pandocOk := true, cwd := "/w", pathExists := fun _ => true }

/-- First upload of the stale-download scenario: `a.pdf`, one readable page. -/
def inpA : RunInput :=
  { baseInput with uploaded := some ("a.pdf", PdfReadResult.ok ["hello"]) }

/-- Second upload of the stale-download scenario: a different file `b.pdf`. -/
def inpB : RunInput :=
  { baseInput with uploaded := some ("b.pdf", PdfReadResult.ok ["world"]) }

/-- A run whose token POST raises (e.g. the identity service rejects or is
unreachable). -/
def inpTokFail : RunInput :=
  { baseInput with
    uploaded := some ("a.pdf", PdfReadResult.ok ["hello"]),
    iamPost := fun _ => PostOutcome.raise "401 Unauthorized" }

/-- A run whose PDF cannot be parsed by the reader. -/
def inpExn : RunInput :=
  { baseInput with uploaded := some ("a.pdf", PdfReadResult.exn "corrupt stream") }

/-- A run whose PDF is readable but has zero pages. -/
def inpEmptyPdf : RunInput :=
  { baseInput with uploaded := some ("a.pdf", PdfReadResult.ok []) }

/-- A run where pandoc download / conversion fails. -/
def inpPandocFail : RunInput :=
  { baseInput with
    uploaded := some ("a.pdf", PdfReadResult.ok ["hello"]),
    pandocOk := false }

/-- A one-chunk chunk list with two pages, for the request-shape witness. -/
def chunksW : List (List (String × String)) :=
  [[("Page 1", "A"), ("Page 2", "B")]]

/-! ## Helper lemmas: stripping -/

theorem pyStrip_data (s : String) :
    (pyStrip s).data = ((s.data.dropWhile isPySpace).reverse.dropWhile isPySpace).reverse := rfl

/-- `str.strip()` is empty exactly when the string is all whitespace. -/
theorem pyStrip_eq_empty_iff (s : String) :
    pyStrip s = "" ↔ s.data.all isPySpace = true := by
  constructor
  · intro h
    have hd := congrArg String.data h
    rw [pyStrip_data] at hd
    have h1 : ∀ x ∈ (s.data.dropWhile isPySpace).reverse, isPySpace x := by
      rw [← List.dropWhile_eq_nil_iff]
      simpa using hd
    rw [List.all_eq_true]
    intro x hx
    rw [← List.takeWhile_append_dropWhile (p := isPySpace) (l := s.data), List.mem_append] at hx
    rcases hx with hx | hx
    · exact List.mem_takeWhile_imp hx
    · exact h1 x (List.mem_reverse.mpr hx)
  · intro h
    rw [List.all_eq_true] at h
    have h2 : s.data.dropWhile isPySpace = [] := List.dropWhile_eq_nil_iff.mpr h
    unfold pyStrip
    rw [h2]
    rfl

theorem sentinel_no_text_ne_empty : sentinel_no_text ≠ "" := by decide

theorem pyStrip_empty : pyStrip "" = "" := rfl

/-! ## Helper lemmas: extraction -/

theorem extractPagesFrom_length (n : Nat) (ps : List String) :
    (extractPagesFrom n ps).length = ps.length := by
  induction ps generalizing n with
  | nil => rfl
  | cons t ts ih => simp [extractPagesFrom, ih]

theorem extractPagesFrom_get (ps : List String) :
    ∀ (n i : Nat) (h : i < ps.length) (h' : i < (extractPagesFrom n ps).length),
      (extractPagesFrom n ps).get ⟨i, h'⟩
        = ("Page " ++ toString (n + i),
           if pyStrip (ps.get ⟨i, h⟩) ≠ "" then ps.get ⟨i, h⟩ else sentinel_no_text) := by
  induction ps with
  | nil => intro n i h h'; simp at h
  | cons t ts ih =>
    intro n i h h'
    cases i with
    | zero => simp [extractPagesFrom]
    | succ j =>
      have hj : j < ts.length := by simpa using h
      have hj' : j < (extractPagesFrom (n + 1) ts).length := by
        rw [extractPagesFrom_length]; exact hj
      have hstep : (extractPagesFrom n (t :: ts)).get ⟨j + 1, h'⟩
          = (extractPagesFrom (n + 1) ts).get ⟨j, hj'⟩ := rfl
      rw [hstep, ih (n + 1) j hj hj']
      have harith : n + 1 + j = n + (j + 1) := by omega
      rw [harith]
      rfl

theorem extractPagesFrom_snd_ne_empty (n : Nat) (ps : List String) :
    ∀ p ∈ extractPagesFrom n ps, p.2 ≠ "" := by
  induction ps generalizing n with
  | nil => intro p hp; simp [extractPagesFrom] at hp
  | cons t ts ih =>
    intro p hp
    simp only [extractPagesFrom, List.mem_cons] at hp
    rcases hp with rfl | hp
    · dsimp only
      split
      · intro h
        rename_i hcond
        rw [h] at hcond
        exact hcond pyStrip_empty
      · exact sentinel_no_text_ne_empty
    · exact ih (n + 1) p hp

/-! ## Helper lemmas: `range` and chunking -/

theorem rangeStepGo_congr (stop step : Nat) (hstep : 0 < step) :
    ∀ f1 f2 s, stop - s ≤ f1 → stop - s ≤ f2 →
      rangeStepGo stop step f1 s = rangeStepGo stop step f2 s := by
  intro f1
  induction f1 with
  | zero =>
    intro f2 s h1 h2
    have hns : ¬ s < stop := by omega
    cases f2 with
    | zero => rfl
    | succ f2 => simp [rangeStepGo, hns]
  | succ f1 ih =>
    intro f2 s h1 h2
    cases f2 with
    | zero =>
      have hns : ¬ s < stop := by omega
      simp [rangeStepGo, hns]
    | succ f2 =>
      by_cases hs : s < stop
      · simp only [rangeStepGo, if_pos hs]
        congr 1
        exact ih f2 (s + step) (by omega) (by omega)
      · simp [rangeStepGo, hs]

/-- One-step unfolding of Python `range` for a positive step. -/
theorem rangeStep_unfold (start stop step : Nat) (hstep : 0 < step) :
    rangeStep start stop step =
      if start < stop then start :: rangeStep (start + step) stop step else [] := by
  unfold rangeStep
  by_cases hs : start < stop
  · rw [if_pos hs]
    have h1 : stop - start = (stop - start - 1) + 1 := by omega
    rw [h1]
    simp only [rangeStepGo, if_pos hs]
    congr 1
    exact rangeStepGo_congr stop step hstep (stop - start - 1) (stop - (start + step))
      (start + step) (by omega) (by omega)
  · rw [if_neg hs]
    have h0 : stop - start = 0 := by omega
    rw [h0]
    rfl

theorem rangeStepGo_shift (stop step a : Nat) :
    ∀ f s, rangeStepGo (stop + a) step f (s + a)
      = (rangeStepGo stop step f s).map (fun x => x + a) := by
  intro f
  induction f with
  | zero => intro s; rfl
  | succ f ih =>
    intro s
    by_cases hs : s < stop
    · have hs' : s + a < stop + a := by omega
      have harith : s + a + step = s + step + a := by omega
      simp only [rangeStepGo, if_pos hs, if_pos hs', List.map_cons]
      rw [harith, ih (s + step)]
    · have hs' : ¬ (s + a < stop + a) := by omega
      simp [rangeStepGo, hs, hs']

/-- Translating a `range` by `a` translates its elements. -/
theorem rangeStep_shift (start stop step a : Nat) :
    rangeStep (start + a) (stop + a) step
      = (rangeStep start stop step).map (fun x => x + a) := by
  unfold rangeStep
  have h : stop + a - (start + a) = stop - start := by omega
  rw [h, rangeStepGo_shift]

theorem chunk_pages_nil (K : Nat) : chunk_pages [] K = [] := rfl

/-- One-step unfolding of `chunk_pages`: the first chunk is the first `K`
pages, the rest chunks the remainder. -/
theorem chunk_pages_cons (d : List (String × String)) (K : Nat) (hK : 0 < K) (hd : d ≠ []) :
    chunk_pages d K = d.take K :: chunk_pages (d.drop K) K := by
  unfold chunk_pages
  have hlen : 0 < d.length := List.length_pos.mpr hd
  rw [rangeStep_unfold 0 d.length K hK, if_pos hlen]
  simp only [List.map_cons, List.drop_zero]
  congr 1
  rw [List.length_drop]
  by_cases hcase : K ≤ d.length
  · have h2 : d.length = (d.length - K) + K := by omega
    conv_lhs => rw [h2]
    rw [show (rangeStep (0 + K) (d.length - K + K) K)
          = (rangeStep 0 (d.length - K) K).map (fun x => x + K) from
        rangeStep_shift 0 (d.length - K) K K]
    rw [List.map_map]
    congr 1
    funext x
    simp only [Function.comp]
    rw [List.drop_drop, Nat.add_comm x K]
  · have h2 : d.length - K = 0 := by omega
    rw [h2]
    rw [rangeStep_unfold (0 + K) d.length K hK, if_neg (by omega)]
    rfl

theorem chunk_pages_flatten (d : List (String × String)) (K : Nat) (hK : 0 < K) :
    (chunk_pages d K).flatten = d := by
  by_cases hd : d = []
  · subst hd; rw [chunk_pages_nil]; rfl
  · rw [chunk_pages_cons d K hK hd]
    have hlen : 0 < d.length := List.length_pos.mpr hd
    simp only [List.flatten_cons]
    rw [chunk_pages_flatten (d.drop K) K hK]
    exact List.take_append_drop K d
termination_by d.length
decreasing_by
  rw [List.length_drop]
  omega

theorem chunk_pages_length (d : List (String × String)) (K : Nat) (hK : 0 < K) :
    (chunk_pages d K).length = (d.length + K - 1) / K := by
  by_cases hd : d = []
  · subst hd
    rw [chunk_pages_nil]
    simp only [List.length_nil]
    symm
    exact Nat.div_eq_of_lt (by omega)
  · have hlen : 0 < d.length := List.length_pos.mpr hd
    rw [chunk_pages_cons d K hK hd]
    simp only [List.length_cons]
    rw [chunk_pages_length (d.drop K) K hK, List.length_drop]
    by_cases hle : K ≤ d.length
    · have h1 : d.length + K - 1 = (d.length - K + K - 1) + K := by omega
      rw [h1, Nat.add_div_right _ hK]
    · have h2 : d.length - K = 0 := by omega
      rw [h2]
      have h3 : (0 + K - 1) / K = 0 := Nat.div_eq_of_lt (by omega)
      rw [h3]
      have h4 : d.length + K - 1 = (d.length - 1) + K := by omega
      rw [h4, Nat.add_div_right _ hK, Nat.div_eq_of_lt (by omega)]
termination_by d.length
decreasing_by
  rw [List.length_drop]
  omega

theorem chunk_pages_chunk_le (d : List (String × String)) (K : Nat) (hK : 0 < K) :
    ∀ c ∈ chunk_pages d K, c.length ≤ K := by
  by_cases hd : d = []
  · subst hd; intro c hc; rw [chunk_pages_nil] at hc; simp at hc
  · have hlen : 0 < d.length := List.length_pos.mpr hd
    rw [chunk_pages_cons d K hK hd]
    intro c hc
    rcases List.mem_cons.mp hc with rfl | hc
    · rw [List.length_take]
      omega
    · exact chunk_pages_chunk_le (d.drop K) K hK c hc
termination_by d.length
decreasing_by
  rw [List.length_drop]
  omega

theorem chunk_pages_single (d : List (String × String)) (K : Nat) (hK : 0 < K)
    (hd : d ≠ []) (hle : d.length ≤ K) : chunk_pages d K = [d] := by
  rw [chunk_pages_cons d K hK hd]
  have h1 : d.drop K = [] := List.drop_eq_nil_of_le hle
  rw [h1, chunk_pages_nil]
  congr 1
  exact List.take_of_length_le hle

/-! ## Helper lemmas: analysis client and loop -/

/-- When the POST delivers a response, `send_chunk_to_watsonx` returns
normally (never raises), whatever the response contains. -/
theorem send_chunk_resp_ok (chunk_text access_token project_id : String)
    (post : WatsonRequest → PostOutcome) (r : HttpResponse)
    (hpost : post (mkWatsonRequest chunk_text access_token project_id) = PostOutcome.resp r) :
    ∃ v, send_chunk_to_watsonx chunk_text access_token project_id post = Except.ok v := by
  unfold send_chunk_to_watsonx
  rw [hpost]
  dsimp only
  cases hp : parseWatsonResponse r with
  | ok v => simp only [hp]; exact ⟨v, rfl⟩
  | error e => simp only [hp]; exact ⟨_, rfl⟩

/-- When the response does not parse, the returned value is the inline
soft-failure string carrying `str(e)` and the raw body. -/
theorem send_chunk_parse_error (chunk_text access_token project_id : String)
    (post : WatsonRequest → PostOutcome) (r : HttpResponse) (e : PyErr)
    (hpost : post (mkWatsonRequest chunk_text access_token project_id) = PostOutcome.resp r)
    (hparse : parseWatsonResponse r = Except.error e) :
    send_chunk_to_watsonx chunk_text access_token project_id post
      = Except.ok (Json.str ("[Watsonx response error: " ++ e.toStr ++ " - Raw: " ++ r.text ++ "]")) := by
  unfold send_chunk_to_watsonx
  rw [hpost]
  dsimp only
  simp only [hparse]

/-- When every POST of the run yields a response, the loop issues exactly
one request per chunk, in order, each built by `mkWatsonRequest` from the
newline-joined chunk values. -/
theorem analyzeLoop_requests (token project_id : String) (genPost : Nat → PostOutcome) :
    ∀ (chunks : List (List (String × String))) (i : Nat),
      (∀ j, j < chunks.length → ∃ r, genPost (i + j) = PostOutcome.resp r) →
      (analyzeLoop token project_id genPost i chunks).1
        = chunks.map (fun c => mkWatsonRequest (chunk_values_text c) token project_id) := by
  intro chunks
  induction chunks with
  | nil => intro i h; rfl
  | cons c cs ih =>
    intro i h
    obtain ⟨r, hr⟩ := h 0 (by simp)
    rw [Nat.add_zero] at hr
    obtain ⟨v, hv⟩ := send_chunk_resp_ok (chunk_values_text c) token project_id
      (fun _ => genPost i) r hr
    simp only [analyzeLoop, hv, List.map_cons]
    congr 1
    apply ih (i + 1)
    intro j hj
    have hh := h (j + 1) (by simpa using Nat.succ_lt_succ hj)
    rwa [show i + (j + 1) = i + 1 + j from by omega] at hh

/-! ## Claim theorems -/

/-- C1 (counterexample): a network error raised by the POST itself is not
converted into the inline soft-failure string; `send_chunk_to_watsonx`
propagates it to its caller (the POST happens before the `try` block), so
the claim "never raises to its caller, including on network error" is
false. -/
theorem claim1_network_error_raises :
    send_chunk_to_watsonx "doc" "tok" "proj" (fun _ => PostOutcome.raise "ConnectionError")
      = Except.error "ConnectionError" := rfl

/-- C1 (amended): whenever the POST completes with a response,
`send_chunk_to_watsonx` never raises; if the response fails to parse
(malformed JSON, missing `results` field, etc.) it returns the inline
string built from the fixed "Watsonx response error" marker, `str(e)` and
the raw response body. -/
theorem claim1_soft_failure (chunk_text access_token project_id : String) (r : HttpResponse) :
    (∃ v, send_chunk_to_watsonx chunk_text access_token project_id
        (fun _ => PostOutcome.resp r) = Except.ok v) ∧
    (∀ e, parseWatsonResponse r = Except.error e →
      send_chunk_to_watsonx chunk_text access_token project_id (fun _ => PostOutcome.resp r)
        = Except.ok (Json.str
            ("[Watsonx response error: " ++ e.toStr ++ " - Raw: " ++ r.text ++ "]"))) := by
  constructor
  · exact send_chunk_resp_ok chunk_text access_token project_id _ r rfl
  · intro e he
    exact send_chunk_parse_error chunk_text access_token project_id _ r e rfl he

/-- C1 (witness): a concrete malformed response with no `results` field
yields the inline error string with the marker and the raw body. -/
theorem claim1_soft_failure_witness :
    send_chunk_to_watsonx "doc" "tok" "proj" (fun _ => PostOutcome.resp missingResultsResp)
      = Except.ok (Json.str "[Watsonx response error: KeyError: results - Raw: RAW]") := by
  have h := (claim1_soft_failure "doc" "tok" "proj" missingResultsResp).2
    (PyErr.keyError "results") rfl
  exact h

/-- C2 (counterexample): for the empty mapping and chunk size 1 we have
K = 1 ≥ M = 0, yet `chunk_pages` yields zero chunks, not exactly one; the
"K ≥ M gives exactly one chunk containing all pages" clause fails at M = 0
(where the claim itself also demands the empty output). -/
theorem claim2_empty_not_one_chunk :
    (0 : Nat) < 1 ∧ ([] : List (String × String)).length ≤ 1
      ∧ (chunk_pages ([] : List (String × String)) 1).length ≠ 1 := by
  decide

/-- C2 (amended): for every positive chunk size K, `chunk_pages` yields
exactly ceil(M/K) chunks of at most K contiguous pages each, whose
concatenation is the input mapping (covering it exactly once, in order);
the empty mapping yields no chunks, and a nonempty mapping with M ≤ K
yields exactly the one chunk containing all pages. -/
theorem claim2_chunking (d : List (String × String)) (K : Nat) (hK : 0 < K) :
    (chunk_pages d K).length = (d.length + K - 1) / K ∧
    (chunk_pages d K).flatten = d ∧
    (∀ c ∈ chunk_pages d K, c.length ≤ K) ∧
    (d = [] → chunk_pages d K = []) ∧
    (d ≠ [] → d.length ≤ K → chunk_pages d K = [d]) := by
  refine ⟨chunk_pages_length d K hK, chunk_pages_flatten d K hK,
    chunk_pages_chunk_le d K hK, ?_, ?_⟩
  · intro hd; subst hd; exact chunk_pages_nil K
  · intro hd hle; exact chunk_pages_single d K hK hd hle

/-- C2 (witness): three pages with chunk size two: ceil(3/2) = 2 chunks,
whose concatenation recovers the input. -/
theorem claim2_chunking_witness :
    (chunk_pages [("Page 1", "a"), ("Page 2", "b"), ("Page 3", "c")] 2).length = 2 ∧
    (chunk_pages [("Page 1", "a"), ("Page 2", "b"), ("Page 3", "c")] 2).flatten
      = [("Page 1", "a"), ("Page 2", "b"), ("Page 3", "c")] := by
  have h := claim2_chunking [("Page 1", "a"), ("Page 2", "b"), ("Page 3", "c")] 2 (by decide)
  exact ⟨h.1.trans (by decide), h.2.1⟩

/-- C3: for a readable PDF, the extracted mapping has one entry per page,
keyed "Page 1".."Page N" in order; an all-whitespace page gets the fixed
sentinel, any other page its own text; no entry is the empty string. -/
theorem claim3_extraction (pages : List String) :
    (extract_text_from_pdf (PdfReadResult.ok pages)).length = pages.length ∧
    (∀ (i : Nat) (h : i < pages.length)
        (h' : i < (extract_text_from_pdf (PdfReadResult.ok pages)).length),
      (extract_text_from_pdf (PdfReadResult.ok pages)).get ⟨i, h'⟩
        = ("Page " ++ toString (i + 1),
           if (pages.get ⟨i, h⟩).data.all isPySpace = true then sentinel_no_text
           else pages.get ⟨i, h⟩)) ∧
    (∀ p ∈ extract_text_from_pdf (PdfReadResult.ok pages), p.2 ≠ "") := by
  refine ⟨extractPagesFrom_length 1 pages, ?_, extractPagesFrom_snd_ne_empty 1 pages⟩
  intro i h h'
  have hg := extractPagesFrom_get pages 1 i h h'
  show (extractPagesFrom 1 pages).get ⟨i, h'⟩ = _
  rw [hg]
  have harith : (1 : Nat) + i = i + 1 := by omega
  rw [harith]
  by_cases hall : (pages.get ⟨i, h⟩).data.all isPySpace = true
  · have hps : pyStrip (pages.get ⟨i, h⟩) = "" := (pyStrip_eq_empty_iff _).mpr hall
    rw [if_neg (not_not_intro hps), if_pos hall]
  · have hps : pyStrip (pages.get ⟨i, h⟩) ≠ "" := by
      intro hc; exact hall ((pyStrip_eq_empty_iff _).mp hc)
    rw [if_pos hps, if_neg hall]

/-- C3 (witness): a two-page PDF whose second page is whitespace-only maps
to "Page 2" with the sentinel. -/
theorem claim3_extraction_witness :
    (extract_text_from_pdf (PdfReadResult.ok ["a", "  "])).get ⟨1, by decide⟩
      = ("Page 2", sentinel_no_text)
    ∧ (extract_text_from_pdf (PdfReadResult.ok ["a", "  "])).length = 2 := by
  have h := claim3_extraction ["a", "  "]
  refine ⟨?_, h.1⟩
  exact (h.2.1 1 (by decide) (by decide)).trans (by decide)

/-- C4 (code-bug evidence): after a successful run on `a.pdf`, re-uploading
`b.pdf` in the same session leaves `word_generated`/`word_path` untouched
(nothing in the script ever clears `st.session_state`), so the new report
is displayed but the Word document is NOT regenerated and the download
button still serves `a.pdf`'s document instead of `b.pdf`'s. -/
theorem claim4_stale_download :
    (run inpA SessionState.init).downloadPath = some "/w/a_Insurance_Claim_Analysis.docx" ∧
    (run inpB (run inpA SessionState.init).finalState).displayedReport = some "R1" ∧
    (run inpB (run inpA SessionState.init).finalState).downloadPath
      = some "/w/a_Insurance_Claim_Analysis.docx" ∧
    (run inpB (run inpA SessionState.init).finalState).downloadPath
      ≠ some (path_join "/w" (splitext_base "b.pdf" ++ "_Insurance_Claim_Analysis.docx")) ∧
    (run inpB (run inpA SessionState.init).finalState).finalState
      = (run inpA SessionState.init).finalState := by
  decide

/-- C5: if the token exchange fails (raises), the pipeline halts inside the
`try` before chunking: no chunking happens, zero analysis requests are
issued, nothing is displayed or offered for download. -/
theorem claim5_token_failure_no_analysis (inp : RunInput) (s : SessionState) (m : String)
    (h : get_ibm_access_token inp.api_key inp.iamPost = Except.error m) :
    (run inp s).requests = [] ∧ (run inp s).chunked = false
      ∧ (run inp s).displayedReport = none ∧ (run inp s).downloadPath = none := by
  unfold run
  cases hup : inp.uploaded with
  | none => exact ⟨rfl, rfl, rfl, rfl⟩
  | some pair =>
    obtain ⟨name, pdf⟩ := pair
    dsimp only
    by_cases hext : (extract_text_from_pdf pdf).isEmpty
    · rw [if_pos hext]
      exact ⟨rfl, rfl, rfl, rfl⟩
    · rw [if_neg hext, h]
      exact ⟨rfl, rfl, rfl, rfl⟩

/-- C5 (witness): a concrete 401 from the identity service: the token call
raises and the run issues zero analysis requests. -/
theorem claim5_token_failure_witness :
    get_ibm_access_token inpTokFail.api_key inpTokFail.iamPost
        = Except.error "401 Unauthorized"
      ∧ (run inpTokFail SessionState.init).requests = [] := by
  refine ⟨rfl, ?_⟩
  exact (claim5_token_failure_no_analysis inpTokFail SessionState.init "401 Unauthorized" rfl).1

/-- C6: when the PDF reader raises (corrupt or encrypted stream), the
extractor returns the empty mapping, the extraction error and the no-text
error are shown, and the run halts: no token fetch, no chunking, zero
analysis requests, no report, no download. -/
theorem claim6_unreadable_pdf_halts (inp : RunInput) (s : SessionState) (name msg : String)
    (hup : inp.uploaded = some (name, PdfReadResult.exn msg)) :
    extract_text_from_pdf (PdfReadResult.exn msg) = [] ∧
    (run inp s).extractionErrorShown = true ∧
    (run inp s).noTextErrorShown = true ∧
    (run inp s).tokenFetched = false ∧
    (run inp s).chunked = false ∧
    (run inp s).requests = [] ∧
    (run inp s).displayedReport = none ∧
    (run inp s).downloadPath = none := by
  unfold run
  rw [hup]
  exact ⟨rfl, rfl, rfl, rfl, rfl, rfl, rfl, rfl⟩

/-- C6 (witness): a concrete corrupt upload. -/
theorem claim6_unreadable_pdf_halts_witness :
    (run inpExn SessionState.init).extractionErrorShown = true
      ∧ (run inpExn SessionState.init).noTextErrorShown = true
      ∧ (run inpExn SessionState.init).requests = [] := by
  have h := claim6_unreadable_pdf_halts inpExn SessionState.init "a.pdf" "corrupt stream" rfl
  exact ⟨h.2.1, h.2.2.1, h.2.2.2.2.2.1⟩

/-- C7: on success the report path is exactly the working directory joined
with the upload base name plus the fixed suffix; it does not depend on the
markdown contents (so a second call with the same base name returns the
same path, overwriting it); base name "claim.pdf" yields exactly
"claim_Insurance_Claim_Analysis.docx". -/
theorem claim7_report_path (md md2 name cwd : String) :
    save_to_word_from_markdown md name cwd true
      = some (path_join cwd (splitext_base name ++ "_Insurance_Claim_Analysis.docx")) ∧
    save_to_word_from_markdown md name cwd true = save_to_word_from_markdown md2 name cwd true ∧
    save_to_word_from_markdown md "claim.pdf" cwd true
      = some (path_join cwd "claim_Insurance_Claim_Analysis.docx") := by
  refine ⟨rfl, rfl, ?_⟩
  have hbase : splitext_base "claim.pdf" ++ "_Insurance_Claim_Analysis.docx"
      = "claim_Insurance_Claim_Analysis.docx" := by decide
  unfold save_to_word_from_markdown
  rw [if_pos rfl, hbase]

/-- C8: in a run where every POST yields a response, each chunk gets
exactly one request, whose input is the fixed instruction preamble followed
by the newline-joined page texts of that chunk in order, with greedy
decoding, max new tokens 8100, min 0, no stop sequences, repetition
penalty 1, the fixed model id and the configured project id. -/
theorem claim8_request_shape (token project_id : String) (genPost : Nat → PostOutcome)
    (chunks : List (List (String × String))) (i : Nat)
    (hresp : ∀ j, j < chunks.length → ∃ r, genPost (i + j) = PostOutcome.resp r) :
    (analyzeLoop token project_id genPost i chunks).1
      = chunks.map (fun c =>
          { url := watsonx_url,
            authorization := "Bearer " ++ token,
            payload :=
              { input := Insurance_Claim_Prompt ++ "\n\nDOCUMENT CONTENT:\n"
                  ++ String.intercalate "\n" (c.map Prod.snd),
                parameters :=
                  { decoding_method := "greedy", max_new_tokens := 8100,
                    min_new_tokens := 0, stop_sequences := [],
                    repetition_penalty := 1 },
                model_id := "meta-llama/llama-3-3-70b-instruct",
                project_id := project_id } }) := by
  exact analyzeLoop_requests token project_id genPost chunks i hresp

/-- C8 (witness): a concrete one-chunk run with two pages "A" and "B". -/
theorem claim8_request_shape_witness :
    (analyzeLoop "tok" "proj" (fun _ => PostOutcome.resp okGenResp) 0 chunksW).1
      = [{ url := watsonx_url,
           authorization := "Bearer tok",
           payload :=
             { input := Insurance_Claim_Prompt ++ "\n\nDOCUMENT CONTENT:\n" ++ "A\nB",
               parameters :=
                 { decoding_method := "greedy", max_new_tokens := 8100,
                   min_new_tokens := 0, stop_sequences := [],
                   repetition_penalty := 1 },
               model_id := "meta-llama/llama-3-3-70b-instruct",
               project_id := "proj" } }] := by
  have h := claim8_request_shape "tok" "proj" (fun _ => PostOutcome.resp okGenResp) chunksW 0
    (fun j hj => ⟨okGenResp, rfl⟩)
  rw [h]
  decide

/-- C9: when conversion fails on a run that reached the display step in a
fresh session, the writer returns no path, no download is offered, the
conversion error is shown, and the displayed report stays exactly the
joined analysis output (nothing is retracted). -/
theorem claim9_conversion_failure (inp : RunInput) (s : SessionState)
    (name out token : String) (pdf : PdfReadResult) (outputs : List Json)
    (hup : inp.uploaded = some (name, pdf))
    (hne : (extract_text_from_pdf pdf).isEmpty = false)
    (htok : get_ibm_access_token inp.api_key inp.iamPost = Except.ok token)
    (hloop : (analyzeLoop token inp.project_id inp.genPost 0
        (chunk_pages (extract_text_from_pdf pdf) 90)).2 = Except.ok outputs)
    (hjoin : pyJoin "\n\n" outputs = Except.ok out)
    (hwg : s.word_generated = false) (hwp : s.word_path = none)
    (hpandoc : inp.pandocOk = false) :
    save_to_word_from_markdown out name inp.cwd inp.pandocOk = none ∧
    (run inp s).displayedReport = some out ∧
    (run inp s).downloadPath = none ∧
    (run inp s).conversionErrorShown = true ∧
    (run inp s).finalState = s := by
  refine ⟨by rw [hpandoc]; rfl, ?_⟩
  unfold run
  rw [hup]
  dsimp only
  rw [if_neg (by simp [hne]), htok]
  dsimp only
  rw [hloop]
  dsimp only
  rw [hjoin]
  dsimp only
  rw [hwg, hpandoc]
  unfold save_to_word_from_markdown
  simp [hwp]

/-- C9 (witness): a concrete run with pandoc unavailable: the report is
displayed but no download is offered. -/
theorem claim9_conversion_failure_witness :
    (run inpPandocFail SessionState.init).displayedReport = some "R1"
      ∧ (run inpPandocFail SessionState.init).downloadPath = none := by
  have h := claim9_conversion_failure inpPandocFail SessionState.init "a.pdf" "R1" "tok"
    (PdfReadResult.ok ["hello"]) [Json.str "R1"] rfl rfl rfl rfl rfl rfl rfl rfl
  exact ⟨h.2.1, h.2.2.1⟩

/-- C10 (counterexample): a zero-page readable PDF and an unreadable PDF do
NOT produce identical user-visible run outputs: the unreadable case
additionally shows the extraction error message, so the two uploads are
distinguishable at the public interface. -/
theorem claim10_empty_vs_unreadable_distinguishable :
    run inpEmptyPdf SessionState.init ≠ run inpExn SessionState.init := by
  decide

/-- C10 (amended): for both a zero-page readable PDF and an unreadable one,
the extractor returns the empty mapping and the run takes the same halt
branch — no-text error, no token fetch, no analysis request, no report, no
download — differing only in the extraction error message, which is shown
in the unreadable case alone. -/
theorem claim10_zero_page_same_halt (inp inp' : RunInput) (s : SessionState)
    (name name' msg : String)
    (hup : inp.uploaded = some (name, PdfReadResult.ok []))
    (hup' : inp'.uploaded = some (name', PdfReadResult.exn msg)) :
    extract_text_from_pdf (PdfReadResult.ok []) = [] ∧
    extract_text_from_pdf (PdfReadResult.exn msg) = [] ∧
    (run inp s).noTextErrorShown = true ∧ (run inp' s).noTextErrorShown = true ∧
    (run inp s).tokenFetched = false ∧ (run inp' s).tokenFetched = false ∧
    (run inp s).requests = [] ∧ (run inp' s).requests = [] ∧
    (run inp s).displayedReport = none ∧ (run inp' s).displayedReport = none ∧
    (run inp s).downloadPath = none ∧ (run inp' s).downloadPath = none ∧
    (run inp s).extractionErrorShown = false ∧ (run inp' s).extractionErrorShown = true := by
  unfold run
  rw [hup, hup']
  exact ⟨rfl, rfl, rfl, rfl, rfl, rfl, rfl, rfl, rfl, rfl, rfl, rfl, rfl, rfl⟩

/-- C10 (witness): the two concrete degenerate uploads. -/
theorem claim10_zero_page_same_halt_witness :
    (run inpEmptyPdf SessionState.init).noTextErrorShown = true
      ∧ (run inpExn SessionState.init).noTextErrorShown = true
      ∧ (run inpEmptyPdf SessionState.init).requests = [] := by
  have h := claim10_zero_page_same_halt inpEmptyPdf inpExn SessionState.init "a.pdf" "a.pdf"
    "corrupt stream" rfl rfl
  exact ⟨h.2.2.1, h.2.2.2.1, h.2.2.2.2.2.2.1⟩
